import Mathlib

/-
  Verification development for the sysprop code generator
  (platform/system/tools/sysprop).

  The definitions below are a shallow embedding of the C++ sources:
    - Common.cpp       : identifier checks, schema validation
    - CppGen.cpp       : C++ header/source generation
    - JavaGen.cpp      : Java class / JNI library generation
    - RustGen.cpp      : Rust module generation
  Each definition's doc comment points at the function it embeds.
  Helpers that live outside the given sources (the protobuf schema
  declaration, CodeWriter.cpp, and the newer Common.cpp helpers used by
  RustGen.cpp) are modelled from the specification and are marked
  `Modelled from the spec:` in their doc comments.
-/

namespace Sysprop

/-- Modelled from the spec: the `owner` field of the schema
(enum Owner in sysprop.proto, which is not among the given sources). -/
inductive Owner where
  | Platform
  | Vendor
  | Odm
deriving DecidableEq

/-- Modelled from the spec: the closed property-type set
(enum Type in sysprop.proto, which is not among the given sources).
`RustGen.cpp` names all sixteen members in its switches; `CppGen.cpp` and
`JavaGen.cpp` name only twelve of them. -/
inductive PropType where
  | Boolean
  | Integer
  | UInt
  | Long
  | ULong
  | Double
  | String
  | Enum
  | BooleanList
  | IntegerList
  | UIntList
  | LongList
  | ULongList
  | DoubleList
  | StringList
  | EnumList
deriving DecidableEq

/-- Modelled from the spec: list variants of the type enum are numbered 20
and above in sysprop.proto; `RustGen.cpp` line 335 tests `prop.type() >= 20`
to recognize them. Scalars are numbered below 20. -/
def PropType.protoNum : PropType → Nat
  | .Boolean => 1
  | .Integer => 2
  | .Long => 3
  | .Double => 4
  | .String => 5
  | .Enum => 6
  | .UInt => 7
  | .ULong => 8
  | .BooleanList => 21
  | .IntegerList => 22
  | .LongList => 23
  | .DoubleList => 24
  | .StringList => 25
  | .EnumList => 26
  | .UIntList => 27
  | .ULongList => 28

/-- Modelled from the spec: the visibility tier
(enum Scope in sysprop.proto, which is not among the given sources). -/
inductive Scope where
  | Public
  | System
  | Internal
deriving DecidableEq

/-- Modelled from the spec: the declared total order Public < System <
Internal, realized as the numeric values of the proto enum which
`RustGen.cpp` line 197 compares with `>`. -/
def Scope.protoNum : Scope → Nat
  | .Public => 1
  | .System => 2
  | .Internal => 3

/-- Modelled from the spec: the access mode
(enum Access in sysprop.proto, which is not among the given sources). -/
inductive Access where
  | Readonly
  | Writeonce
  | ReadWrite
deriving DecidableEq

/-- One property declaration.  Union of the fields used by the 2018-era
generators (`name`, `readonly`) and the newer RustGen
(`api_name`, `prop_name`, `access`).  `readonly` is an optional proto
field: `none` models an unset field (proto getter default `false`);
`ParseProps` fills it to `true` when unset. -/
structure Property where
  name : String := ""
  type : PropType := .Integer
  scope : Scope := .Public
  access : Access := .Readonly
  readonly : Option Bool := none
  enum_values : String := ""
  api_name : String := ""
  prop_name : String := ""
  legacy_prop_name : String := ""
  deprecated : Bool := false
  integer_as_bool : Bool := false
deriving DecidableEq

/-- The proto getter `prop.readonly()`: returns the field's value, or the
proto default `false` when the field is unset. -/
def Property.readonlyG (p : Property) : Bool := p.readonly.getD false

/-- The schema root (message Properties of sysprop.proto).  The C++ field
accessor `prefix()` is rendered `prefix_` because `prefix` is reserved in
Lean. -/
structure Properties where
  owner : Owner := .Vendor
  module : String := ""
  prefix_ : String := ""
  prop : List Property := []
deriving DecidableEq

/-- android::base::Split with a single-character delimiter set, as used by
Common.cpp (`Split(name, ".")`, `Split(enum_values, "|")`):  splits on
every occurrence of the delimiter and yields the (possibly empty) pieces;
the empty string yields the one-element list [""] . -/
def splitCharAux (delim : Char) : List Char → List Char → List String
  | [], acc => [String.mk acc.reverse]
  | c :: cs, acc =>
    if c = delim then String.mk acc.reverse :: splitCharAux delim cs []
    else splitCharAux delim cs (c :: acc)

/-- android::base::Split specialized to one delimiter character. -/
def Split (s : String) (delim : Char) : List String :=
  splitCharAux delim s.toList []

/-- android::base::StartsWith. -/
def StartsWith (s pre : String) : Bool :=
  pre.toList.isPrefixOf s.toList

/-- Common.cpp `IsCorrectIdentifier` (lines 49-61): non-empty, first
character a letter or underscore, remaining characters letters, digits or
underscores. -/
def IsCorrectIdentifier (name : String) : Bool :=
  match name.toList with
  | [] => false
  | c :: cs =>
    (c.isAlpha || c = '_') && cs.all (fun d => d.isAlpha || d = '_' || d.isDigit)

/-- Common.cpp `IsCorrectPropertyName` (lines 63-71): non-empty and every
dot-separated token is a correct identifier. -/
def IsCorrectPropertyName (name : String) : Bool :=
  !name.isEmpty && (Split name '.').all IsCorrectIdentifier

/-- Common.cpp `PropNameToIdentifier` (lines 245-248): replace every dot
with an underscore. -/
def PropNameToIdentifier (name : String) : String :=
  String.mk (name.toList.map fun c => if c = '.' then '_' else c)

/-- The `std::unordered_set` scan of Common.cpp lines 97-105: first element
of the list whose insertion fails, i.e. the first element equal to an
earlier one. -/
def findFirstDup (seen : List String) : List String → Option String
  | [] => none
  | n :: ns => if seen.contains n then some n else findFirstDup (n :: seen) ns

/-- The enum-value validation block of Common.cpp `ValidateProp`
lines 80-106: split `enum_values` on '|'; reject an empty list
("Enum values are empty"), then the first token that is not a correct
identifier, then the first duplicated token. -/
def ValidateEnumValues (prop : Property) : Except String Unit :=
  if prop.type = .Enum ∨ prop.type = .EnumList then
    let names := Split prop.enum_values '|'
    if names.isEmpty then
      .error ("Enum values are empty for prop \"" ++ prop.name ++ "\"")
    else
      match names.find? (fun n => !IsCorrectIdentifier n) with
      | some n =>
        .error ("Invalid enum value \"" ++ n ++ "\" for prop \"" ++ prop.name ++ "\"")
      | none =>
        match findFirstDup [] names with
        | some n =>
          .error ("Duplicated enum value \"" ++ n ++ "\" for prop \"" ++ prop.name ++ "\"")
        | none => .ok ()
  else .ok ()

/-- Common.cpp `ValidateProp` (lines 73-120): name shape, then the
enum-value checks, then (for Platform owners) the vendor./odm. namespace
restriction on `prefix() + name`. -/
def ValidateProp (props : Properties) (prop : Property) : Except String Unit :=
  if !IsCorrectPropertyName prop.name then
    .error ("Invalid prop name \"" ++ prop.name ++ "\"")
  else
    match ValidateEnumValues prop with
    | .error e => .error e
    | .ok _ =>
      if props.owner = .Platform then
        let full_name := props.prefix_ ++ prop.name
        if StartsWith full_name "vendor." || StartsWith full_name "odm." then
          .error ("Prop \"" ++ prop.name ++
            "\" owned by platform cannot have vendor. or odm. namespace")
        else .ok ()
      else .ok ()

/-- The per-property loop of Common.cpp `ValidateProps` lines 146-149:
first error of `ValidateProp` over the list, in declaration order. -/
def firstPropError (props : Properties) : List Property → Option String
  | [] => none
  | p :: ps =>
    match ValidateProp props p with
    | .error e => some e
    | .ok _ => firstPropError props ps

/-- The duplicate-name scan of Common.cpp `ValidateProps` lines 151-161:
insert each property's dot-flattened identifier into a set, in declaration
order; the first property whose insertion fails is returned. -/
def findDuplicateProp (seen : List String) : List Property → Option Property
  | [] => none
  | p :: ps =>
    let id := PropNameToIdentifier p.name
    if seen.contains id then some p else findDuplicateProp (id :: seen) ps

/-- Common.cpp `ValidateProps` (lines 122-182), translated with the same
early-return control flow: module segment count, module segment shapes,
prefix shape, non-empty property list, per-property checks, duplicate
flattened names, and the Platform/module-sentinel biconditional. -/
def ValidateProps (props : Properties) : Except String Unit :=
  let names := Split props.module '.'
  if names.length ≤ 1 then
    .error ("Invalid module name \"" ++ props.module ++ "\"")
  else
    match names.find? (fun n => !IsCorrectIdentifier n) with
    | some n => .error ("Invalid name \"" ++ n ++ "\" in module")
    | none =>
      if !props.prefix_.isEmpty && !IsCorrectPropertyName props.prefix_ then
        .error ("Invalid prefix \"" ++ props.prefix_ ++ "\"")
      else if props.prop.length = 0 then
        .error "There is no defined property"
      else
        match firstPropError props props.prop with
        | some e => .error e
        | none =>
          match findDuplicateProp [] props.prop with
          | some p => .error ("Duplicated prop name \"" ++ p.name ++ "\"")
          | none =>
            if props.owner = .Platform then
              if props.module ≠ "android.os.PlatformProperties" then
                .error ("Platform-defined properties should have \"android.os.PlatformProperties\" as module name")
              else .ok ()
            else
              if props.module = "android.os.PlatformProperties" then
                .error ("Vendor or Odm cannot use \"android.os.PlatformProperties\" as module name")
              else .ok ()

/-- The default-filling loop of Common.cpp `ParseProps` lines 236-240:
an unset `readonly` field becomes `true`. -/
def fillDefaults (props : Properties) : Properties :=
  { props with
    prop := props.prop.map fun p =>
      if p.readonly.isNone then { p with readonly := some true } else p }

/-- Common.cpp `ParseProps` (lines 218-243) past the external file read and
protobuf parse: validate, then fill defaults. -/
def ParsePropsChecked (props : Properties) : Except String Properties :=
  match ValidateProps props with
  | .error e => .error e
  | .ok _ => .ok (fillDefaults props)

/-- CppGen.cpp `GetCppEnumName` (lines 232-234): the dot-flattened
property name with the literal suffix "_values". -/
def GetCppEnumName (prop : Property) : String :=
  PropNameToIdentifier prop.name ++ "_values"

/-- JavaGen.cpp `GetJavaEnumTypeName` (lines 265-267): the dot-flattened
property name with the literal suffix "_values". -/
def GetJavaEnumTypeName (prop : Property) : String :=
  PropNameToIdentifier prop.name ++ "_values"

/-- CppGen.cpp `GetCppPropTypeName` (lines 236-265).  The C++ switch has no
case for UInt, ULong, UIntList and ULongList and falls through to
`__builtin_unreachable()`; reaching that branch is modelled as `none`. -/
def GetCppPropTypeName (prop : Property) : Option String :=
  match prop.type with
  | .Boolean => some "bool"
  | .Integer => some "std::int32_t"
  | .Long => some "std::int64_t"
  | .Double => some "double"
  | .String => some "std::string"
  | .Enum => some (GetCppEnumName prop)
  | .BooleanList => some "std::vector<bool>"
  | .IntegerList => some "std::vector<std::int32_t>"
  | .LongList => some "std::vector<std::int64_t>"
  | .DoubleList => some "std::vector<double>"
  | .StringList => some "std::vector<std::string>"
  | .EnumList => some ("std::vector<" ++ GetCppEnumName prop ++ ">")
  | .UInt => none
  | .ULong => none
  | .UIntList => none
  | .ULongList => none

/-- JavaGen.cpp `GetJavaTypeName` (lines 269-298).  Like the C++ mapping,
the switch has no case for UInt, ULong, UIntList and ULongList and falls
through to `__builtin_unreachable()`, modelled as `none`. -/
def GetJavaTypeName (prop : Property) : Option String :=
  match prop.type with
  | .Boolean => some "Boolean"
  | .Integer => some "Integer"
  | .Long => some "Long"
  | .Double => some "Double"
  | .String => some "String"
  | .Enum => some (GetJavaEnumTypeName prop)
  | .BooleanList => some "List<Boolean>"
  | .IntegerList => some "List<Integer>"
  | .LongList => some "List<Long>"
  | .DoubleList => some "List<Double>"
  | .StringList => some "List<String>"
  | .EnumList => some ("List<" ++ GetJavaEnumTypeName prop ++ ">")
  | .UInt => none
  | .ULong => none
  | .UIntList => none
  | .ULongList => none

/-- Modelled from the spec: `ApiNameToIdentifier` (called by RustGen.cpp
line 47 but defined in the newer Common.cpp, not among the given sources).
The spec's Identifier Engine builds generated identifiers by substituting
the separator characters of the raw name; dots and dashes become
underscores. -/
def ApiNameToIdentifier (name : String) : String :=
  String.mk (name.toList.map fun c => if c = '-' ∨ c = '.' then '_' else c)

/-- Helper of the snake-to-camel conversion: uppercase the first character
of one underscore-separated fragment. -/
def capitalizeFragment (s : String) : String :=
  match s.toList with
  | [] => ""
  | c :: cs => String.mk (c.toUpper :: cs)

/-- Modelled from the spec: `SnakeCaseToCamelCase` (called by RustGen.cpp
lines 48, 221 but defined in the newer Common.cpp, not among the given
sources).  The spec's Identifier Engine provides a snake-case to
camel-case converter: each underscore-separated fragment is capitalized
and the fragments are concatenated. -/
def SnakeCaseToCamelCase (s : String) : String :=
  String.join ((Split s '_').map capitalizeFragment)

/-- Modelled from the spec: the camel-case to snake-case converter (called
by RustGen.cpp line 200 but defined in the newer Common.cpp, not among the
given sources).  An uppercase letter is lowercased; a word boundary
underscore is inserted before it when it follows a lowercase letter or a
digit, or when it ends an uppercase run that is followed by a lowercase
letter (acronym handling, e.g. "test_BOOLeaN" becomes "test_boo_lea_n" as
in the repository's RustGen test). -/
def camelToSnakeAux : Option Char → List Char → List Char
  | _, [] => []
  | prev, c :: cs =>
    if c.isUpper then
      let boundary :=
        match prev with
        | none => false
        | some p =>
          p.isLower || p.isDigit ||
            (p.isUpper && (match cs with | d :: _ => d.isLower | [] => false))
      (if boundary then ['_', c.toLower] else [c.toLower]) ++
        camelToSnakeAux (some c) cs
    else c :: camelToSnakeAux (some c) cs

/-- Modelled from the spec: see `camelToSnakeAux`. -/
def CamelCaseToSnakeCase (s : String) : String :=
  String.mk (camelToSnakeAux none s.toList)

/-- Modelled from the spec: `ToUpper` (called by RustGen.cpp line 202 but
defined in the newer Common.cpp, not among the given sources): the
all-uppercase transform of the Identifier Engine. -/
def ToUpper (s : String) : String :=
  String.mk (s.toList.map Char.toUpper)

/-- Modelled from the spec: `ParseEnumValues` (called by RustGen.cpp line
212 but defined in the newer Common.cpp, not among the given sources): the
pipe-delimited ordered list of enum values. -/
def ParseEnumValues (enum_values : String) : List String :=
  Split enum_values '|'

/-- RustGen.cpp `GetRustEnumType` (lines 46-49): CamelCase of the
identifier derived from the API name, with the literal suffix "Values". -/
def GetRustEnumType (prop : Property) : String :=
  SnakeCaseToCamelCase (ApiNameToIdentifier prop.api_name) ++ "Values"

/-- RustGen.cpp `GetRustReturnType` (lines 51-88).  Every member of the
type enum has a case; the `default: __builtin_unreachable()` branch is
only for integer values outside the proto enum, which the embedding's
inductive type excludes. -/
def GetRustReturnType (prop : Property) : String :=
  match prop.type with
  | .Boolean => "bool"
  | .Integer => "i32"
  | .UInt => "u32"
  | .Long => "i64"
  | .ULong => "u64"
  | .Double => "f64"
  | .String => "String"
  | .Enum => GetRustEnumType prop
  | .BooleanList => "Vec<bool>"
  | .IntegerList => "Vec<i32>"
  | .UIntList => "Vec<u32>"
  | .LongList => "Vec<i64>"
  | .ULongList => "Vec<u64>"
  | .DoubleList => "Vec<f64>"
  | .StringList => "Vec<String>"
  | .EnumList => "Vec<" ++ GetRustEnumType prop ++ ">"

/-- RustGen.cpp `GetRustAcceptType` (lines 90-127). -/
def GetRustAcceptType (prop : Property) : String :=
  match prop.type with
  | .Boolean => "bool"
  | .Integer => "i32"
  | .UInt => "u32"
  | .Long => "i64"
  | .ULong => "u64"
  | .Double => "f64"
  | .String => "&str"
  | .Enum => GetRustEnumType prop
  | .BooleanList => "&[bool]"
  | .IntegerList => "&[i32]"
  | .UIntList => "&[u32]"
  | .LongList => "&[i64]"
  | .ULongList => "&[u64]"
  | .DoubleList => "&[f64]"
  | .StringList => "&[String]"
  | .EnumList => "&[" ++ GetRustEnumType prop ++ "]"

/-- RustGen.cpp `GetTypeParser` (lines 129-154). -/
def GetTypeParser (prop : Property) : String :=
  match prop.type with
  | .Boolean => "parsers_formatters::parse_bool"
  | .Integer | .UInt | .Long | .ULong | .Double | .String | .Enum =>
    "parsers_formatters::parse"
  | .BooleanList => "parsers_formatters::parse_bool_list"
  | .IntegerList | .UIntList | .LongList | .ULongList | .DoubleList
  | .StringList | .EnumList => "parsers_formatters::parse_list"

/-- RustGen.cpp `GetTypeFormatter` (lines 156-187). -/
def GetTypeFormatter (prop : Property) : String :=
  match prop.type with
  | .Boolean =>
    if prop.integer_as_bool then "parsers_formatters::format_bool_as_int"
    else "parsers_formatters::format_bool"
  | .String | .Integer | .UInt | .Long | .ULong | .Double | .Enum =>
    "parsers_formatters::format"
  | .BooleanList =>
    if prop.integer_as_bool then "parsers_formatters::format_bool_list_as_int"
    else "parsers_formatters::format_bool_list"
  | .IntegerList | .UIntList | .LongList | .ULongList | .DoubleList
  | .StringList | .EnumList => "parsers_formatters::format_list"

/-- The prefix computation shared by CppGen.cpp `GenerateSource`
(lines 410-411, also 384-385) and JavaGen.cpp `GenerateJniLibrary`
(lines 481-482): "ro." for read-only properties, then the schema prefix,
then a '.' appended when the result is non-empty and does not already end
with a dot (`push_back('.')` appends the one-character string "."). -/
def KeyPrefix (props : Properties) (prop : Property) : String :=
  let pre := (if prop.readonlyG then "ro." else "") ++ props.prefix_
  if !(pre.toList = []) && !(pre.toList.getLast? = some '.') then pre ++ "."
  else pre

/-- The property key embedded in the getter and setter emitted by
CppGen.cpp `GenerateSource` (lines 420-421, 429-433):
`"%s%s", prefix, prop.name()`. -/
def CppGetterKey (props : Properties) (prop : Property) : String :=
  KeyPrefix props prop ++ prop.name

/-- The property key embedded in the JNI getter and setter emitted by
JavaGen.cpp `GenerateJniLibrary` (lines 487, 499-501):
`"%s%s", prefix, prop.name()`. -/
def JniGetterKey (props : Properties) (prop : Property) : String :=
  KeyPrefix props prop ++ prop.name

/-- Replace every dot of `s` by the string `r`; the
`std::regex_replace(s, kRegexDot, r)` pattern of CppGen.cpp line 228
(r = "_"), line 268 (r = "::") and JavaGen.cpp line 475 (r = "/"). -/
def ReplaceDots (s : String) (r : String) : String :=
  String.join (List.intersperse r (Split s '.'))

/-- Modelled from the spec: the generated-file marker comment
`kGeneratedFileFooterComments` (declared in Common.h, which is not among
the given sources); its text appears in the repository's RustGen test
expectations. -/
def kGeneratedFileFooterComments : String :=
  "// Generated by the sysprop generator. DO NOT EDIT!\n\n"

/-- CppGen.cpp / RustGen.cpp `kIndent`. -/
def kIndent : String := "    "

/-- CppGen.cpp `kCppHeaderIncludes`. -/
def kCppHeaderIncludes : String :=
  "#include <cstdint>\n#include <optional>\n#include <string>\n#include <vector>\n\n"

/-- RustGen.cpp `kDocs`. -/
def kDocs : String :=
  "//! Autogenerated system property accessors.\n//!\n//! This is an autogenerated module. The module contains methods for typed access to\n//! Android system properties."

/-- RustGen.cpp `kRustFileImports`. -/
def kRustFileImports : String :=
  "use std::fmt;\nuse rustutils::system_properties::\x7bself, error::SysPropError, parsers_formatters\x7d;"

/-- RustGen.cpp `kDeprecated`. -/
def kDeprecated : String := "#[deprecated]"

/-- Modelled from the spec (§4.3 Code Writer; CodeWriter.cpp is not among
the given sources): an indentation-tracking text accumulator.  `write`
appends text; at the start of a non-empty line the indent string is
emitted `level` times before the first character; a newline returns the
writer to line-start state.  Dedent below zero is a fatal programming
error in the source, modelled here by truncated subtraction. -/
structure CodeWriter where
  indentStr : String
  level : Nat
  startOfLine : Bool
  out : String

/-- A fresh writer (`CodeWriter writer(kIndent)`). -/
def CodeWriter.mkWriter (indentStr : String) : CodeWriter :=
  ⟨indentStr, 0, true, ""⟩

/-- Append one character, emitting pending indentation first. -/
def CodeWriter.putChar (w : CodeWriter) (c : Char) : CodeWriter :=
  if c = '\n' then { w with out := w.out.push c, startOfLine := true }
  else if w.startOfLine then
    { w with
      out := (w.out ++ String.join (List.replicate w.level w.indentStr)).push c,
      startOfLine := false }
  else { w with out := w.out.push c }

/-- `CodeWriter::Write` with the formatting already substituted. -/
def CodeWriter.write (w : CodeWriter) (s : String) : CodeWriter :=
  s.toList.foldl CodeWriter.putChar w

/-- `CodeWriter::Indent`. -/
def CodeWriter.indent (w : CodeWriter) : CodeWriter :=
  { w with level := w.level + 1 }

/-- `CodeWriter::Dedent`. -/
def CodeWriter.dedent (w : CodeWriter) : CodeWriter :=
  { w with level := w.level - 1 }

/-- CppGen.cpp `GetHeaderIncludeGuardName` (lines 227-230). -/
def GetHeaderIncludeGuardName (props : Properties) : String :=
  "SYSPROPGEN_" ++ ReplaceDots props.module "_" ++ "_H_"

/-- CppGen.cpp `GetCppNamespace` (lines 267-269). -/
def GetCppNamespace (props : Properties) : String :=
  ReplaceDots props.module "::"

/-- One iteration of the property loop of CppGen.cpp `GenerateHeader`
(lines 285-309).  `GetCppPropTypeName` is consulted for every property,
so a property of an unmapped type reaches the unreachable branch and the
whole generation is `none`. -/
def writeHeaderProp (w : CodeWriter) (ip : Nat × Property) : Option CodeWriter := do
  let (i, prop) := ip
  let w := if i > 0 then w.write "\n" else w
  let prop_id := PropNameToIdentifier prop.name
  let prop_type ← GetCppPropTypeName prop
  let w :=
    if prop.type = .Enum ∨ prop.type = .EnumList then
      let w := w.write ("enum class " ++ GetCppEnumName prop ++ " \x7b\n")
      let w := w.indent
      let w := (Split prop.enum_values '|').foldl (fun w n => w.write (n ++ ",\n")) w
      let w := w.dedent
      w.write "\x7d;\n\n"
    else w
  let w := w.write ("std::optional<" ++ prop_type ++ "> " ++ prop_id ++ "();\n")
  let w :=
    if !prop.readonlyG then
      w.write ("bool " ++ prop_id ++ "(const " ++ prop_type ++ "& value);\n")
    else w
  pure w

/-- CppGen.cpp `GenerateHeader` (lines 271-317).  The result is `none`
when some property's type has no C++ mapping (the
`__builtin_unreachable()` default of `GetCppPropTypeName`). -/
def GenerateHeader (props : Properties) : Option String := do
  let w := CodeWriter.mkWriter kIndent
  let w := w.write kGeneratedFileFooterComments
  let g := GetHeaderIncludeGuardName props
  let w := w.write ("#ifndef " ++ g ++ "\n#define " ++ g ++ "\n\n")
  let w := w.write kCppHeaderIncludes
  let ns := GetCppNamespace props
  let w := w.write ("namespace " ++ ns ++ " \x7b\n\n")
  let w ← props.prop.enum.foldlM writeHeaderProp w
  let w := w.write ("\n\x7d  // namespace " ++ ns ++ "\n\n")
  let w := w.write ("#endif  // " ++ g ++ "\n")
  pure w.out

/-- The per-property emission of RustGen.cpp `GenerateRustSource`
(lines 195-345): the scope filter (line 197), the name constant, the
synthesized enum with its parser and formatter, the getter with its
optional legacy fallback, and the setter for writable properties. -/
def writeRustProp (scope : Scope) (w : CodeWriter) (prop : Property) : CodeWriter :=
  if scope.protoNum < prop.scope.protoNum then w
  else
    let prop_id := CamelCaseToSnakeCase (ApiNameToIdentifier prop.api_name)
    let prop_const := ToUpper prop_id ++ "_PROP"
    let w := w.write ("/// The property name of the \"" ++ prop_id ++ "\" API.\n")
    let w := w.write ("pub const " ++ prop_const ++ ": &str = \"" ++ prop.prop_name ++ "\";\n\n")
    let w :=
      if prop.type = .Enum ∨ prop.type = .EnumList then
        let enum_type := GetRustEnumType prop
        let values := ParseEnumValues prop.enum_values
        let w := w.write "#[allow(missing_docs)]\n"
        let w := w.write "#[derive(Copy, Clone, Debug, Eq, PartialEq, PartialOrd, Hash, Ord)]\n"
        let w := w.write ("pub enum " ++ enum_type ++ " \x7b\n")
        let w := w.indent
        let w := values.foldl (fun w v => w.write (SnakeCaseToCamelCase v ++ ",\n")) w
        let w := w.dedent
        let w := w.write "\x7d\n\n"
        let w := w.write ("impl std::str::FromStr for " ++ enum_type ++ " \x7b\n")
        let w := w.indent
        let w := w.write "type Err = String;\n\n"
        let w := w.write "fn from_str(s: &str) -> std::result::Result<Self, Self::Err> \x7b\n"
        let w := w.indent
        let w := w.write "match s \x7b\n"
        let w := w.indent
        let w := values.foldl
          (fun w v => w.write ("\"" ++ v ++ "\" => Ok(" ++ enum_type ++ "::" ++ SnakeCaseToCamelCase v ++ "),\n")) w
        let w := w.write ("_ => Err(format!(\"\x27\x7b\x7d\x27 cannot be parsed for " ++ enum_type ++ "\", s)),\n")
        let w := w.dedent
        let w := w.write "\x7d\n"
        let w := w.dedent
        let w := w.write "\x7d\n"
        let w := w.dedent
        let w := w.write "\x7d\n\n"
        let w := w.write ("impl fmt::Display for " ++ enum_type ++ " \x7b\n")
        let w := w.indent
        let w := w.write "fn fmt(&self, f: &mut fmt::Formatter<\x27_>) -> fmt::Result \x7b\n"
        let w := w.indent
        let w := w.write "match self \x7b\n"
        let w := w.indent
        let w := values.foldl
          (fun w v => w.write (enum_type ++ "::" ++ SnakeCaseToCamelCase v ++ " => write!(f, \"" ++ v ++ "\"),\n")) w
        let w := w.dedent
        let w := w.write "\x7d\n"
        let w := w.dedent
        let w := w.write "\x7d\n"
        let w := w.dedent
        w.write "\x7d\n\n"
      else w
    let prop_return_type := GetRustReturnType prop
    let parserFn := GetTypeParser prop
    let w := w.write ("/// Returns the value of the property \x27" ++ prop.prop_name ++ "\x27 if set.\n")
    let w := if prop.deprecated then w.write (kDeprecated ++ "\n") else w
    let identifier := if prop_id = "type" then "r#" ++ prop_id else prop_id
    let w := w.write ("pub fn " ++ identifier ++ "() -> std::result::Result<Option<" ++ prop_return_type ++ ">, SysPropError> \x7b\n")
    let w := w.indent
    let w := w.write ("let result = match system_properties::read(" ++ prop_const ++ ") \x7b\n")
    let w := w.indent
    let w := w.write "Err(e) => Err(SysPropError::FetchError(e)),\n"
    let w := w.write ("Ok(Some(val)) => " ++ parserFn ++ "(val.as_str()).map_err(SysPropError::ParseError).map(Some),\n")
    let w := w.write "Ok(None) => Ok(None),\n"
    let w := w.dedent
    let w := w.write "\x7d;\n"
    let w :=
      if !(prop.legacy_prop_name = "") then
        let w := w.write "if result.is_ok() \x7b return result; \x7d\n"
        let w := w.write ("log::debug!(\"Failed to fetch the original property \x27" ++ prop.prop_name ++ "\x27 (\x27\x7b\x7d\x27), falling back to the legacy one \x27" ++ prop.legacy_prop_name ++ "\x27.\", result.unwrap_err());\n")
        let w := w.write ("match system_properties::read(\"" ++ prop.legacy_prop_name ++ "\") \x7b\n")
        let w := w.indent
        let w := w.write "Err(e) => Err(SysPropError::FetchError(e)),\n"
        let w := w.write ("Ok(Some(val)) => " ++ parserFn ++ "(val.as_str()).map_err(SysPropError::ParseError).map(Some),\n")
        let w := w.write "Ok(None) => Ok(None),\n"
        let w := w.dedent
        w.write "\x7d\n"
      else w.write "result\n"
    let w := w.dedent
    let w := w.write "\x7d\n\n"
    if prop.access = .Readonly then w
    else
      let prop_accept_type := GetRustAcceptType prop
      let formatter := GetTypeFormatter prop
      let w := w.write ("/// Sets the value of the property \x27" ++ prop.prop_name ++ "\x27, returns \x27Ok\x27 if successful.\n")
      let w := if prop.deprecated then w.write (kDeprecated ++ "\n") else w
      let w := w.write ("pub fn set_" ++ prop_id ++ "(v: " ++ prop_accept_type ++ ") -> std::result::Result<(), SysPropError> \x7b\n")
      let w := w.indent
      let wa :=
        if prop.type = .String then (w, "v")
        else
          let format_arg := if prop.type.protoNum ≥ 20 then "v" else "&v"
          (w.write ("let value = " ++ formatter ++ "(" ++ format_arg ++ ");\n"), "value.as_str()")
      let w := wa.1
      let write_arg := wa.2
      let w := w.write ("system_properties::write(" ++ prop_const ++ ", " ++ write_arg ++ ").map_err(SysPropError::SetError)\n")
      let w := w.dedent
      w.write "\x7d\n\n"

/-- RustGen.cpp `GenerateRustSource` (lines 189-347). -/
def GenerateRustSource (props : Properties) (scope : Scope) : String :=
  let w := CodeWriter.mkWriter kIndent
  let w := w.write (kDocs ++ "\n\n")
  let w := w.write kGeneratedFileFooterComments
  let w := w.write (kRustFileImports ++ "\n\n")
  let w := props.prop.foldl (writeRustProp scope) w
  w.out

/-- The error enum of the emitted Rust getter
(`SysPropError` in the generated code): a fetch failure from the property
store or a parse failure of a present raw value. -/
inductive SysPropErr (F P : Type) where
  | FetchError (e : F)
  | ParseError (e : P)

/-- Semantics of one read attempt of the emitted Rust getter (the match
emitted by RustGen.cpp lines 281-291 for the primary key and lines 300-309
for the legacy key): `read key` failing becomes `FetchError`; a present
value is parsed, a parse failure becomes `ParseError`; an absent value is
`Ok(None)`. -/
def ReadAttempt {F P α : Type} (read : String → Except F (Option String))
    (parse : String → Except P α) (key : String) :
    Except (SysPropErr F P) (Option α) :=
  match read key with
  | .error e => .error (.FetchError e)
  | .ok (some val) =>
    match parse val with
    | .error e => .error (.ParseError e)
    | .ok v => .ok (some v)
  | .ok none => .ok none

/-- Semantics of the getter body emitted for a property with a non-empty
`legacy_prop_name` (RustGen.cpp lines 280-313): try the primary key; if
the result is ok it is returned (`if result.is_ok() return result`),
otherwise the same attempt is made against the legacy key and its result
returned. -/
def RustGetterWithLegacy {F P α : Type} (read : String → Except F (Option String))
    (parse : String → Except P α) (primary legacy : String) :
    Except (SysPropErr F P) (Option α) :=
  match ReadAttempt read parse primary with
  | .ok v => .ok v
  | .error _ => ReadAttempt read parse legacy

/-- Phase 1 of Common.cpp `ValidateProps` (lines 123-134): the module has
at least two dot-separated segments, each a correct identifier. -/
def CheckModule (props : Properties) : Except String Unit :=
  let names := Split props.module '.'
  if names.length ≤ 1 then
    .error ("Invalid module name \"" ++ props.module ++ "\"")
  else
    match names.find? (fun n => !IsCorrectIdentifier n) with
    | some n => .error ("Invalid name \"" ++ n ++ "\" in module")
    | none => .ok ()

/-- Phase 2 of Common.cpp `ValidateProps` (lines 136-139): a non-empty
prefix is a correct dotted property name. -/
def CheckPrefix (props : Properties) : Except String Unit :=
  if !props.prefix_.isEmpty && !IsCorrectPropertyName props.prefix_ then
    .error ("Invalid prefix \"" ++ props.prefix_ ++ "\"")
  else .ok ()

/-- Phase 3 of Common.cpp `ValidateProps` (lines 141-144): at least one
property is declared. -/
def CheckNonEmpty (props : Properties) : Except String Unit :=
  if props.prop.length = 0 then .error "There is no defined property"
  else .ok ()

/-- Phase 4 of Common.cpp `ValidateProps` (lines 146-149): the
per-property checks, in declaration order. -/
def CheckEachProp (props : Properties) : Except String Unit :=
  match firstPropError props props.prop with
  | some e => .error e
  | none => .ok ()

/-- Phase 5 of Common.cpp `ValidateProps` (lines 151-161): no two
properties share a dot-flattened identifier. -/
def CheckDupNames (props : Properties) : Except String Unit :=
  match findDuplicateProp [] props.prop with
  | some p => .error ("Duplicated prop name \"" ++ p.name ++ "\"")
  | none => .ok ()

/-- Phase 6 of Common.cpp `ValidateProps` (lines 163-179): the
Platform ⇔ reserved-module-name biconditional. -/
def CheckPlatformModule (props : Properties) : Except String Unit :=
  if props.owner = .Platform then
    if props.module ≠ "android.os.PlatformProperties" then
      .error ("Platform-defined properties should have \"android.os.PlatformProperties\" as module name")
    else .ok ()
  else
    if props.module = "android.os.PlatformProperties" then
      .error ("Vendor or Odm cannot use \"android.os.PlatformProperties\" as module name")
    else .ok ()

/-- The inclusion filter of RustGen.cpp `GenerateRustSource` line 197
(`if (prop.scope() > scope) continue`): the properties whose scope tier
does not exceed the requested tier, in declaration order. -/
def ScopedProps (props : Properties) (scope : Scope) : List Property :=
  props.prop.filter fun p => decide (p.scope.protoNum ≤ scope.protoNum)

/-- The amended form of claim C3: the key embedded in the generated getter
and setter is the read-only marker "ro." (when the property is read-only)
followed by the schema prefix, with a dot inserted before the property
name whenever that combined string is non-empty and does not already end
in a dot, followed by the property name. -/
def AmendedEffectiveKey (ro : Bool) (pre name : String) : String :=
  let base := (if ro then "ro." else "") ++ pre
  (if base.toList = [] ∨ base.toList.getLast? = some '.' then base
   else base ++ ".") ++ name

/-- The enum member list emitted by CppGen.cpp `GenerateHeader`
lines 292-301 (and `GenerateSource` lines 343-352): the pipe-split values,
verbatim, in declaration order. -/
def cppEnumMembers (prop : Property) : List String :=
  Split prop.enum_values '|'

/-- The enum member list emitted by JavaGen.cpp `GenerateJavaClass`
lines 418-429: the pipe-split values, verbatim, in declaration order. -/
def javaEnumMembers (prop : Property) : List String :=
  Split prop.enum_values '|'

/-- The enum member list emitted by RustGen.cpp `GenerateRustSource`
lines 212, 220-222: the pipe-split values, each converted to camel case,
in declaration order. -/
def rustEnumMembers (prop : Property) : List String :=
  (ParseEnumValues prop.enum_values).map SnakeCaseToCamelCase

/-! Concrete schemas used by the theorems below.  The first five mirror the
fixtures of tests/InvalidSyspropTest.cpp. -/

/-- Fixture kDuplicatedField of tests/InvalidSyspropTest.cpp. -/
def schemaDuplicatedField : Properties :=
  { owner := .Vendor, module := "com.error.DuplicatedField", prefix_ := "com.error",
    prop := [ { name := "dup", type := .Integer, scope := .Internal },
              { name := "dup", type := .Long, scope := .Public } ] }

/-- Fixture kEmptyProp of tests/InvalidSyspropTest.cpp. -/
def schemaEmptyProp : Properties :=
  { owner := .Vendor, module := "com.google.EmptyProp", prefix_ := "" }

/-- Fixture kInvalidPropName of tests/InvalidSyspropTest.cpp. -/
def schemaInvalidPropName : Properties :=
  { owner := .Odm, module := "odm.invalid.prop.name", prefix_ := "invalid",
    prop := [ { name := "!@#$", type := .Integer, scope := .System } ] }

/-- Fixture kInvalidModuleName of tests/InvalidSyspropTest.cpp. -/
def schemaInvalidModuleName : Properties :=
  { owner := .Platform, module := "", prefix_ := "",
    prop := [ { name := "integer", type := .Integer, scope := .Public } ] }

/-- Fixture kDuplicatedEnumValue of tests/InvalidSyspropTest.cpp. -/
def schemaDuplicatedEnumValue : Properties :=
  { owner := .Vendor, module := "vendor.module.name", prefix_ := "",
    prop := [ { name := "status", type := .Enum,
                enum_values := "on|off|intermediate|on", scope := .Public } ] }

/-- C2 counterexample property: writable, so no "ro." marker. -/
def c2prop : Property := { name := "x", type := .Integer, readonly := some false }

/-- C2 counterexample schema: Platform owner, reserved module sentinel, and
the prefix "vendor" without a trailing dot. -/
def c2props : Properties :=
  { owner := .Platform, module := "android.os.PlatformProperties",
    prefix_ := "vendor", prop := [c2prop] }

/-- C2 witness property. -/
def c2wprop : Property := { name := "x", type := .Integer }

/-- C2 witness schema: Platform owner with the prefix "vendor." (trailing
dot), so the validator's concatenation starts with "vendor.". -/
def c2wprops : Properties :=
  { owner := .Platform, module := "android.os.PlatformProperties",
    prefix_ := "vendor.", prop := [c2wprop] }

/-- C3 counterexample property: read-only. -/
def c3prop : Property := { name := "x", type := .Integer, readonly := some true }

/-- C3 counterexample schema: non-empty prefix without a trailing dot. -/
def c3props : Properties :=
  { owner := .Vendor, module := "com.a.B", prefix_ := "abc", prop := [c3prop] }

/-- C4 example: a duplicated pair declared before a property with an
invalid name; the per-property phase still reports the invalid name. -/
def schemaNameAndDup : Properties :=
  { owner := .Vendor, module := "com.a.B", prefix_ := "",
    prop := [ { name := "dup", type := .Integer },
              { name := "dup", type := .Integer },
              { name := "!", type := .Integer } ] }

/-- C4 example: a duplicated pair and a wrong module sentinel for a
Platform owner; the duplicate phase fires before the sentinel phase. -/
def schemaDupAndModule : Properties :=
  { owner := .Platform, module := "com.a.B", prefix_ := "",
    prop := [ { name := "dup", type := .Integer },
              { name := "dup", type := .Integer } ] }

/-- C4 example: the dotted names "a.b" and "a_b" differ but flatten to the
same identifier. -/
def schemaFlattenCollision : Properties :=
  { owner := .Vendor, module := "com.a.B", prefix_ := "",
    prop := [ { name := "a.b", type := .Integer },
              { name := "a_b", type := .Integer } ] }

/-- C5 witness property: an Enum property with empty enum_values. -/
def c5prop : Property := { name := "empty_enum_value", type := .Enum, enum_values := "" }

/-- C5 witness schema (fixture kEmptyEnumValues of
tests/InvalidSyspropTest.cpp). -/
def c5props : Properties :=
  { owner := .Odm, module := "test.manufacturer", prefix_ := "test", prop := [c5prop] }

/-- C6 counterexample property, named "status" as in the spec examples. -/
def statusProp : Property :=
  { name := "status", api_name := "status", type := .Enum, enum_values := "on|off" }

/-- C6 concreteness check: the "test_enum" property of the repository's
RustGen test, whose expected output names the enum "TestEnumValues". -/
def testEnumProp : Property :=
  { name := "test_enum", api_name := "test_enum", type := .Enum,
    enum_values := "a|b|c|D|e|f|G" }

/-- C7 witness read oracle: the primary key "p" yields a fetch error, the
legacy key "l" yields a present value. -/
def c7readErr : String → Except String (Option String) :=
  fun k => if k = "p" then .error "boom" else .ok (some "1")

/-- C7 witness read oracle: the primary key is absent. -/
def c7readAbsent : String → Except String (Option String) :=
  fun _ => .ok none

/-- C7 witness parser: parses "1" and nothing else. -/
def c7parse : String → Except String Nat :=
  fun s => if s = "1" then .ok 1 else .error "parse"

/-- C8 witness schema: one property per scope tier. -/
def c8props : Properties :=
  { owner := .Vendor, module := "com.a.B", prefix_ := "",
    prop := [ { name := "pub", type := .Integer, scope := .Public },
              { name := "sys", type := .Integer, scope := .System },
              { name := "int", type := .Integer, scope := .Internal } ] }

/-- C9 witness schemas: identical module and property list, different
owner and prefix. -/
def c9propsA : Properties :=
  { owner := .Vendor, module := "com.a.B", prefix_ := "",
    prop := [ { name := "x", type := .Integer, api_name := "x", prop_name := "x",
                scope := .Public, access := .ReadWrite } ] }

/-- See `c9propsA`: same module and properties, different owner/prefix. -/
def c9propsB : Properties :=
  { owner := .Odm, module := "com.a.B", prefix_ := "foo.",
    prop := [ { name := "x", type := .Integer, api_name := "x", prop_name := "x",
                scope := .Public, access := .ReadWrite } ] }

/-- C10: one property of each type missing from the C++/Java mappings. -/
def uintProp : Property := { name := "u1", type := .UInt }

/-- See `uintProp`. -/
def ulongProp : Property := { name := "u2", type := .ULong }

/-- See `uintProp`. -/
def uintListProp : Property := { name := "u3", type := .UIntList }

/-- See `uintProp`. -/
def ulongListProp : Property := { name := "u4", type := .ULongList }

/-- C10 schema: validation accepts all four unsigned types. -/
def schemaUnsigned : Properties :=
  { owner := .Vendor, module := "com.test.Mod", prefix_ := "",
    prop := [uintProp, ulongProp, uintListProp, ulongListProp] }

/-! Theorems for the claims. -/

/-- C1: validation via `ParseProps` of each of the five invalid fixtures
fails with exactly the stated message: a duplicated property name "dup", a
schema with no property, the invalid property name "!@#$", the empty
module name, and the duplicated enum value "on" of the property
"status". -/
theorem validator_reject_messages_exact :
    ParsePropsChecked schemaDuplicatedField = .error "Duplicated prop name \"dup\"" ∧
    ParsePropsChecked schemaEmptyProp = .error "There is no defined property" ∧
    ParsePropsChecked schemaInvalidPropName = .error "Invalid prop name \"!@#$\"" ∧
    ParsePropsChecked schemaInvalidModuleName = .error "Invalid module name \"\"" ∧
    ParsePropsChecked schemaDuplicatedEnumValue =
      .error "Duplicated enum value \"on\" for prop \"status\"" :=
  ⟨rfl, rfl, rfl, rfl, rfl⟩

/-- C2 counterexample: the claim "a Platform schema whose property's
effective key starts with vendor. never passes validation, for every
choice of prefix" is false.  With prefix "vendor" (no trailing dot) and a
writable property "x", the generated getter's key is "vendor.x", yet the
validator — which tests the plain concatenation prefix + name =
"vendorx" — accepts the schema. -/
theorem platform_vendor_key_cex :
    ValidateProps c2props = .ok () ∧
    ParsePropsChecked c2props = .ok (fillDefaults c2props) ∧
    CppGetterKey c2props c2prop = "vendor.x" ∧
    JniGetterKey c2props c2prop = "vendor.x" ∧
    StartsWith (CppGetterKey c2props c2prop) "vendor." = true ∧
    StartsWith (c2props.prefix_ ++ c2prop.name) "vendor." = false :=
  ⟨rfl, rfl, rfl, rfl, rfl, rfl⟩

/-- C2 amended: for a Platform-owned schema, any property whose plain
concatenation prefix + name starts with "vendor." or "odm." is rejected
by the per-property validation with the message citing that property's
name and the vendor/odm restriction.  (The validator tests the plain
concatenation, not the dot-normalized key the generator later embeds, so
the original claim's universal form fails; see the counterexample.) -/
theorem platform_vendor_reject_amended (props : Properties) (prop : Property)
    (how : props.owner = .Platform)
    (hname : IsCorrectPropertyName prop.name = true)
    (henum : ValidateEnumValues prop = .ok ())
    (hpre : StartsWith (props.prefix_ ++ prop.name) "vendor." = true ∨
            StartsWith (props.prefix_ ++ prop.name) "odm." = true) :
    ValidateProp props prop =
      .error ("Prop \"" ++ prop.name ++
        "\" owned by platform cannot have vendor. or odm. namespace") := by
  unfold ValidateProp
  rw [hname, henum, how]
  rcases hpre with h | h <;> simp [h]

/-- Witness for `platform_vendor_reject_amended` at the schema with prefix
"vendor." and property "x". -/
theorem platform_vendor_reject_amended_witness :
    IsCorrectPropertyName c2wprop.name = true ∧
    ValidateProp c2wprops c2wprop =
      .error "Prop \"x\" owned by platform cannot have vendor. or odm. namespace" :=
  ⟨rfl, platform_vendor_reject_amended c2wprops c2wprop rfl rfl rfl (Or.inl rfl)⟩

/-- C3 counterexample: the claim that the embedded key equals
("ro." if read-only else "") ++ prefix ++ name for every combination is
false: with prefix "abc" (no trailing dot) and read-only property "x" the
generated key is "ro.abc.x", not "ro.abcx". -/
theorem getter_key_cex :
    c3prop.readonlyG = true ∧
    CppGetterKey c3props c3prop = "ro.abc.x" ∧
    ¬ CppGetterKey c3props c3prop = "ro." ++ c3props.prefix_ ++ c3prop.name ∧
    ¬ JniGetterKey c3props c3prop = "ro." ++ c3props.prefix_ ++ c3prop.name :=
  ⟨rfl, rfl, by decide, by decide⟩

/-- C3 amended: for every schema and property, the key embedded in the
generated C++ getter/setter and in the generated JNI getter/setter equals
the read-only marker plus the prefix, with a dot appended when that
combined string is non-empty and does not already end in a dot, plus the
property name.  (Equal to the claim's plain concatenation exactly when the
prefix is empty or ends with a dot.) -/
theorem getter_key_amended (props : Properties) (prop : Property) :
    CppGetterKey props prop =
      AmendedEffectiveKey prop.readonlyG props.prefix_ prop.name ∧
    JniGetterKey props prop =
      AmendedEffectiveKey prop.readonlyG props.prefix_ prop.name := by
  have h : KeyPrefix props prop ++ prop.name =
      AmendedEffectiveKey prop.readonlyG props.prefix_ prop.name := by
    unfold KeyPrefix AmendedEffectiveKey
    set base := (if prop.readonlyG then "ro." else "") ++ props.prefix_
    by_cases h1 : base.data = []
    · simp [h1]
    · by_cases h2 : base.data.getLast? = some '.'
      · simp [h1, h2]
      · simp [h1, h2]
  exact ⟨h, h⟩

/-- C10: the C++ and Java type mappings are partial over the accepted type
set: a schema declaring properties of types UInt, ULong, UIntList and
ULongList passes validation (and the Rust mapping covers them), yet
`GetCppPropTypeName` and `GetJavaTypeName` fall through to their
`__builtin_unreachable()` default (modelled as `none`), and C++ header
generation for such a schema reaches that branch. -/
theorem unsigned_types_reach_unreachable :
    ValidateProps schemaUnsigned = .ok () ∧
    ParsePropsChecked schemaUnsigned = .ok (fillDefaults schemaUnsigned) ∧
    GetCppPropTypeName uintProp = none ∧ GetJavaTypeName uintProp = none ∧
    GetRustReturnType uintProp = "u32" ∧
    GetCppPropTypeName ulongProp = none ∧ GetJavaTypeName ulongProp = none ∧
    GetRustReturnType ulongProp = "u64" ∧
    GetCppPropTypeName uintListProp = none ∧ GetJavaTypeName uintListProp = none ∧
    GetRustReturnType uintListProp = "Vec<u32>" ∧
    GetCppPropTypeName ulongListProp = none ∧ GetJavaTypeName ulongListProp = none ∧
    GetRustReturnType ulongListProp = "Vec<u64>" ∧
    GenerateHeader schemaUnsigned = none :=
  ⟨rfl, rfl, rfl, rfl, rfl, rfl, rfl, rfl, rfl, rfl, rfl, rfl, rfl, rfl, rfl⟩

/-- android::base::Split never returns an empty list: even the empty
string splits into [""] . -/
theorem splitCharAux_ne_nil (delim : Char) (cs acc : List Char) :
    splitCharAux delim cs acc ≠ [] := by
  induction cs generalizing acc with
  | nil => simp [splitCharAux]
  | cons c cs ih =>
    unfold splitCharAux
    split
    · simp
    · exact ih _

/-- C5: an Enum or EnumList property whose `enum_values` field is the
empty string is rejected with exactly the invalid-enum-value message
citing the empty string and the property's name — the split of "" on '|'
is [""] and "" is not a correct identifier.  Moreover the distinct
"Enum values are empty" branch is dead: its guard asks whether the split
is the empty list, and a split is never empty. -/
theorem empty_enum_values_message :
    (∀ (props : Properties) (prop : Property),
      (prop.type = .Enum ∨ prop.type = .EnumList) →
      prop.enum_values = "" →
      IsCorrectPropertyName prop.name = true →
      ValidateProp props prop =
        .error ("Invalid enum value \"\" for prop \"" ++ prop.name ++ "\"")) ∧
    (∀ s : String, Split s '|' ≠ []) := by
  constructor
  · intro props prop htype hev hname
    unfold ValidateProp
    rw [hname]
    have henum0 : ValidateEnumValues prop =
        .error ("Invalid enum value \"" ++ "" ++ "\" for prop \"" ++ prop.name ++ "\"") := by
      unfold ValidateEnumValues
      rw [if_pos htype, hev]
      rfl
    have hpre2 : ("Invalid enum value \"" ++ "" ++ "\" for prop \"") =
        "Invalid enum value \"\" for prop \"" := rfl
    rw [henum0, hpre2]
    simp
  · intro s
    exact splitCharAux_ne_nil '|' s.toList []

/-- Witness for `empty_enum_values_message` at the kEmptyEnumValues
fixture of tests/InvalidSyspropTest.cpp. -/
theorem empty_enum_values_message_witness :
    c5prop.enum_values = "" ∧
    ValidateProp c5props c5prop =
      .error "Invalid enum value \"\" for prop \"empty_enum_value\"" :=
  ⟨rfl, empty_enum_values_message.1 c5props c5prop (Or.inl rfl) rfl rfl⟩

/-- C6 counterexample: the claim that each generator's synthesized enum
type is named CamelCase(identifier) + "Values" is false for the C++ and
Java generators: for the property "status" they derive "status_values",
not "StatusValues". -/
theorem enum_type_name_cex :
    GetCppEnumName statusProp = "status_values" ∧
    GetJavaEnumTypeName statusProp = "status_values" ∧
    SnakeCaseToCamelCase (PropNameToIdentifier statusProp.name) ++ "Values" = "StatusValues" ∧
    GetCppEnumName statusProp ≠
      SnakeCaseToCamelCase (PropNameToIdentifier statusProp.name) ++ "Values" ∧
    GetJavaEnumTypeName statusProp ≠
      SnakeCaseToCamelCase (PropNameToIdentifier statusProp.name) ++ "Values" :=
  ⟨rfl, rfl, rfl, by decide, by decide⟩

/-- C6 amended: only the Rust generator names the synthesized enum
CamelCase(identifier) + "Values"; the C++ and Java generators name it
identifier + "_values".  The members are the pipe-delimited enum_values in
declaration order, emitted verbatim by the C++ and Java generators and
camel-cased by the Rust generator — checked on the "test_enum" fixture of
the repository's RustGen test, whose expected output names the type
"TestEnumValues" with members A..G. -/
theorem enum_type_name_amended :
    (∀ prop : Property,
      GetRustEnumType prop =
        SnakeCaseToCamelCase (ApiNameToIdentifier prop.api_name) ++ "Values" ∧
      GetCppEnumName prop = PropNameToIdentifier prop.name ++ "_values" ∧
      GetJavaEnumTypeName prop = PropNameToIdentifier prop.name ++ "_values" ∧
      cppEnumMembers prop = Split prop.enum_values '|' ∧
      javaEnumMembers prop = Split prop.enum_values '|' ∧
      rustEnumMembers prop = (Split prop.enum_values '|').map SnakeCaseToCamelCase) ∧
    GetRustEnumType testEnumProp = "TestEnumValues" ∧
    cppEnumMembers testEnumProp = ["a", "b", "c", "D", "e", "f", "G"] ∧
    rustEnumMembers testEnumProp = ["A", "B", "C", "D", "E", "F", "G"] :=
  ⟨fun _ => ⟨rfl, rfl, rfl, rfl, rfl, rfl⟩, rfl, rfl, rfl⟩

/-- C7: the getter emitted for a property with a legacy name consults the
legacy key exactly when the primary attempt yields an error (a fetch or a
parse error); when the primary attempt succeeds — including with an
absent value — its result is returned and the legacy key is never
consulted (the result does not depend on what the read oracle returns for
any key other than the primary one). -/
theorem legacy_fallback_semantics {F P α : Type}
    (read : String → Except F (Option String)) (parse : String → Except P α)
    (primary legacy : String) :
    (∀ e : SysPropErr F P,
      ReadAttempt read parse primary = .error e →
      RustGetterWithLegacy read parse primary legacy =
        ReadAttempt read parse legacy) ∧
    (∀ v : Option α,
      ReadAttempt read parse primary = .ok v →
      RustGetterWithLegacy read parse primary legacy = .ok v ∧
      ∀ read' : String → Except F (Option String),
        read' primary = read primary →
        RustGetterWithLegacy read' parse primary legacy = .ok v) := by
  constructor
  · intro e he
    unfold RustGetterWithLegacy
    rw [he]
  · intro v hv
    have hsame : ∀ read' : String → Except F (Option String),
        read' primary = read primary →
        ReadAttempt read' parse primary = ReadAttempt read parse primary := by
      intro read' hagree
      unfold ReadAttempt
      rw [hagree]
    constructor
    · unfold RustGetterWithLegacy
      rw [hv]
    · intro read' hagree
      unfold RustGetterWithLegacy
      rw [hsame read' hagree, hv]

/-- Witness for `legacy_fallback_semantics`: with a fetch error on the
primary key the getter returns the legacy attempt's value; with an absent
primary value it returns Ok(None) without consulting the legacy key. -/
theorem legacy_fallback_semantics_witness :
    (RustGetterWithLegacy c7readErr c7parse "p" "l" =
      ReadAttempt c7readErr c7parse "l" ∧
     ReadAttempt c7readErr c7parse "l" = .ok (some 1)) ∧
    RustGetterWithLegacy c7readAbsent c7parse "p" "l" = .ok none :=
  ⟨⟨(legacy_fallback_semantics c7readErr c7parse "p" "l").1 (.FetchError "boom") rfl, rfl⟩,
   ((legacy_fallback_semantics c7readAbsent c7parse "p" "l").2 none rfl).1⟩

/-- C8: scope filtering is monotone — for tiers A ≤ B in the declared
total order Public < System < Internal, the properties included at tier A
form a sublist (subset, in declaration order) of those included at tier
B, which in turn form a sublist of the declared property list. -/
theorem scope_filter_monotone (props : Properties) (a b : Scope)
    (h : a.protoNum ≤ b.protoNum) :
    (ScopedProps props a).Sublist (ScopedProps props b) ∧
    (ScopedProps props b).Sublist props.prop := by
  constructor
  · refine List.monotone_filter_right _ ?_
    intro p hp
    simp only [decide_eq_true_eq] at hp ⊢
    exact le_trans hp h
  · exact List.filter_sublist _

/-- Witness for `scope_filter_monotone` at Public ≤ Internal on a schema
with one property per tier. -/
theorem scope_filter_monotone_witness :
    Scope.protoNum .Public ≤ Scope.protoNum .Internal ∧
    (ScopedProps c8props .Public).Sublist (ScopedProps c8props .Internal) ∧
    (ScopedProps c8props .Internal).Sublist c8props.prop :=
  ⟨by decide, scope_filter_monotone c8props .Public .Internal (by decide)⟩

/-- C9: generation is deterministic — two runs of a generator on the same
schema (and scope) are byte-identical, and the output is a pure function
of exactly the schema fields the generator consumes (module and property
list for the C++ header; property list and scope for the Rust source),
with no dependence on ambient state. -/
theorem generation_deterministic :
    (∀ (p : Properties) (scope : Scope),
      GenerateHeader p = GenerateHeader p ∧
      GenerateRustSource p scope = GenerateRustSource p scope) ∧
    (∀ p q : Properties, p.module = q.module → p.prop = q.prop →
      ∀ scope : Scope,
        GenerateHeader p = GenerateHeader q ∧
        GenerateRustSource p scope = GenerateRustSource q scope) := by
  constructor
  · exact fun p scope => ⟨rfl, rfl⟩
  · intro p q hm hp scope
    constructor
    · unfold GenerateHeader GetHeaderIncludeGuardName GetCppNamespace
      rw [hm, hp]
    · unfold GenerateRustSource
      rw [hp]

/-- Witness for `generation_deterministic`: two schemas with the same
module and property list but different owner and prefix generate
byte-identical artifacts. -/
theorem generation_deterministic_witness :
    c9propsA.owner ≠ c9propsB.owner ∧
    c9propsA.prefix_ ≠ c9propsB.prefix_ ∧
    GenerateHeader c9propsA = GenerateHeader c9propsB ∧
    GenerateRustSource c9propsA .Public = GenerateRustSource c9propsB .Public :=
  ⟨by decide, by decide,
   (generation_deterministic.2 c9propsA c9propsB rfl rfl .Public).1,
   (generation_deterministic.2 c9propsA c9propsB rfl rfl .Public).2⟩

/-- C4: validation is fail-fast and runs its checks in the declared
order — `ValidateProps` equals the sequential composition (first error
wins) of the module-shape, prefix-shape, non-empty-list, per-property,
flattened-duplicate and Platform-sentinel phases, in that order.
Concretely: a schema with both a duplicated pair and an invalid property
name reports the invalid name (the per-property phase precedes the
duplicate scan); a schema with both a duplicate and a wrong module
sentinel reports the duplicate; and the names "a.b" and "a_b" collide
because comparison is on the dot-flattened identifier. -/
theorem validate_fail_fast_order :
    (∀ props : Properties,
      ValidateProps props =
        (CheckModule props >>= fun _ =>
         CheckPrefix props >>= fun _ =>
         CheckNonEmpty props >>= fun _ =>
         CheckEachProp props >>= fun _ =>
         CheckDupNames props >>= fun _ =>
         CheckPlatformModule props)) ∧
    ValidateProps schemaNameAndDup = .error "Invalid prop name \"!\"" ∧
    ValidateProps schemaDupAndModule = .error "Duplicated prop name \"dup\"" ∧
    ValidateProps schemaFlattenCollision = .error "Duplicated prop name \"a_b\"" := by
  refine ⟨?_, rfl, rfl, rfl⟩
  intro props
  unfold ValidateProps CheckModule CheckPrefix CheckNonEmpty CheckEachProp
    CheckDupNames CheckPlatformModule
  simp only [bind, Except.bind]
  repeat' (first | rfl | split)

end Sysprop
